import Mathlib

/-!
# DuckshotAnalytics — verification of the agent pipeline core

A shallow embedding of the repository's agent execution framework:

* `python_agents/agents/base_agent.py` — the `Agent.execute` plugin lifecycle
  hook dispatch (`Agent.execute`, `triggerStart`, `triggerEnd`, `triggerError`);
* `python_agents/agents/orchestrator_agent.py` — the six-stage pipeline
  (`OrchestratorAgent.run` over the concrete sub-agents, and
  `OrchestratorAgent.runWith` over arbitrary stage behaviours);
* `python_agents/agents/snapchat_data_fetcher_agent.py`,
  `data_analysis_agent.py`, `database_agent.py`, `evaluation_agent.py` and the
  `agent-service/adk/services/{test,safety}.py` stage agents;
* `python_agents/services/storage.py` (`StorageService`),
  `services/snapchat.py` (`fetch_snapchat_data`) and
  `services/gemini.py` (`generate_ai_insight`).

Python-side conventions used throughout the embedding:

* Python values flowing through the pipeline are modelled by `PyValue`
  (`None`, `bool`, `int`, `float`, `str`, `list`, `dict`).  Python `dict`s are
  insertion-ordered association lists with unique keys, matching how the
  repository builds them.  Python `float`s are represented by their `repr`
  string: the repository only ever constructs float literals and round-trips
  them through `json`; it performs no float arithmetic and never branches on a
  float, so the `repr` (which `json.dumps`/`loads` round-trips exactly) is a
  faithful representation.
* Raised exceptions are modelled by `PyErr`, keeping the exception class and
  message so that "re-raised unchanged" and "raised explicitly, not
  propagated" are expressible.
* Byte strings are modelled by `Bytes` at the two decoding interfaces the
  repository uses (`.decode("utf-8")` and `json.loads`); see `Bytes`.
-/

/-- A Python value as used by the pipeline (the JSON-representable fragment
plus `None`/`bool` distinctions).  `dict` is an insertion-ordered association
list; `float lit` carries the Python `repr` of the float (see module header). -/
inductive PyValue where
  | none
  | bool (b : Bool)
  | int (n : Int)
  | float (lit : String)
  | str (s : String)
  | list (xs : List PyValue)
  | dict (fields : List (String × PyValue))

/-- Python truthiness (`bool(v)`): `None`, `False`, `0`, `0.0`, `""` and empty
containers are falsy, everything else truthy.  (`0.0` and `-0.0` are the only
float `repr`s denoting zero.) -/
def PyValue.truthy : PyValue → Bool
  | .none => false
  | .bool b => b
  | .int n => n != 0
  | .float lit => lit != "0.0" && lit != "-0.0"
  | .str s => s != ""
  | .list xs => !xs.isEmpty
  | .dict fs => !fs.isEmpty

/-- `isinstance(v, str)`. -/
def PyValue.isStr : PyValue → Bool
  | .str _ => true
  | _ => false

/-- `d.get(key)` on a Python dict: the stored value, or `None` when the key is
absent (`dict.get` defaults to `None`). -/
def PyValue.dictGet (fields : List (String × PyValue)) (key : String) : PyValue :=
  (fields.lookup key).getD .none

/-- A raised Python exception, tagged with its class so that conversion (e.g.
`json.JSONDecodeError` caught and re-raised as `ValueError`) is observable. -/
inductive PyErr where
  | valueError (msg : String)
  | exception (msg : String)
  | attributeError (msg : String)
  | unicodeDecodeError (msg : String)
  | jsonDecodeError (msg : String)
  deriving Repr, DecidableEq

/-- `str(e)`: the human-readable message of the exception, as interpolated by
the f-strings in the source. -/
def PyErr.message : PyErr → String
  | .valueError m => m
  | .exception m => m
  | .attributeError m => m
  | .unicodeDecodeError m => m
  | .jsonDecodeError m => m

/-- JSON string quoting as performed by `json.dumps` (the repository's strings
are ASCII text; the escapes below cover the characters they contain). -/
def jsonQuoteChar (c : Char) : String :=
  if c = '"' then "\\\""
  else if c = '\\' then "\\\\"
  else if c = '\n' then "\\n"
  else if c = '\t' then "\\t"
  else if c = '\r' then "\\r"
  else String.singleton c

/-- JSON string literal for `s`. -/
def jsonQuote (s : String) : String :=
  "\"" ++ String.join (s.toList.map jsonQuoteChar) ++ "\""

mutual

/-- The JSON document `json.dumps(v)` produces (default separators
`", "` and `": "`). -/
def PyValue.dumps : PyValue → String
  | .none => "null"
  | .bool true => "true"
  | .bool false => "false"
  | .int n => toString n
  | .float lit => lit
  | .str s => jsonQuote s
  | .list xs => "[" ++ PyValue.dumpsItems xs ++ "]"
  | .dict fs => "\x7b" ++ PyValue.dumpsFields fs ++ "\x7d"

/-- Comma-separated dump of a JSON array's items. -/
def PyValue.dumpsItems : List PyValue → String
  | [] => ""
  | [x] => x.dumps
  | x :: xs => x.dumps ++ ", " ++ PyValue.dumpsItems xs

/-- Comma-separated dump of a JSON object's fields. -/
def PyValue.dumpsFields : List (String × PyValue) → String
  | [] => ""
  | [(k, v)] => jsonQuote k ++ ": " ++ v.dumps
  | (k, v) :: fs => jsonQuote k ++ ": " ++ v.dumps ++ ", " ++ PyValue.dumpsFields fs

end

/-- A byte string, modelled at the two decoding interfaces the repository
applies to artifact contents (`.decode("utf-8")` and
`json.loads(·.decode("utf-8"))`), partitioned by how those interfaces behave:

* `jsonUtf8 v` — `json.dumps(v).encode("utf-8")` for a value `v`.  UTF-8
  decoding yields the JSON document of `v`, and `json.loads` of that document
  yields `v` back: on this value domain (string-keyed dicts, no NaN) the
  Python `json` round trip is exact.
* `textUtf8 s` — `s.encode("utf-8")` for a text `s` that is not a JSON
  document (the insight texts this repository produces are English prose, on
  which `json.loads` fails at the first character).
* `invalidUtf8 detail` — a byte string that is not valid UTF-8; `detail` is
  the text of the `UnicodeDecodeError` it raises. -/
inductive Bytes where
  | jsonUtf8 (v : PyValue)
  | textUtf8 (s : String)
  | invalidUtf8 (detail : String)

/-- The error message `json.loads` reports on text that is not a JSON
document and fails at its first character (English prose does). -/
def jsonSyntaxErrorDetail : String := "Expecting value: line 1 column 1 (char 0)"

/-- `content.decode("utf-8")`. -/
def Bytes.decodeUtf8 : Bytes → Except PyErr String
  | .jsonUtf8 v => .ok v.dumps
  | .textUtf8 s => .ok s
  | .invalidUtf8 detail => .error (.unicodeDecodeError detail)

/-- `json.loads(content.decode("utf-8"))`: fails with `UnicodeDecodeError` on
invalid UTF-8 and with `json.JSONDecodeError` on non-JSON text; inverts
`json.dumps` on encoded values (exact round trip, see `Bytes`). -/
def Bytes.jsonLoadsDecoded : Bytes → Except PyErr PyValue
  | .jsonUtf8 v => .ok v
  | .textUtf8 _ => .error (.jsonDecodeError jsonSyntaxErrorDetail)
  | .invalidUtf8 detail => .error (.unicodeDecodeError detail)

/-- An artifact (`services/artifact_service.py` interface): an immutable
named, mime-typed, byte-bearing record. -/
structure Artifact where
  name : String
  content : Bytes
  mime_type : String

/-- `User` from `python_agents/services/storage.py`: id, username and two
optional Snapchat credential fields. -/
structure User where
  id : Int
  username : String
  snapchat_client_id : Option String := Option.none
  snapchat_api_key : Option String := Option.none
  deriving Repr, DecidableEq

/-- Python truthiness of an `Optional[str]` attribute (`not user.x`):
falsy iff `None` or the empty string. -/
def optStrFalsy : Option String → Bool
  | Option.none => true
  | some s => s == ""

/-- The mutable state the pipeline touches: the `StorageService` dictionaries
(`_users`, `_snapchat_data`, `_ai_insights`) and the artifact store's record
of created artifacts.  The storage dictionaries are modelled as
most-recent-first association lists: a write prepends, a read takes the first
binding, so the latest write for a key wins, exactly as for a Python dict. -/
structure World where
  users : List (Int × User)
  snapchat_data : List (Int × PyValue)
  ai_insights : List (Int × String)
  artifacts : List Artifact

namespace StorageService

/-- `storage.get_user(user_id)`: `self._users.get(user_id)`. -/
def get_user (w : World) (user_id : Int) : Option User :=
  w.users.lookup user_id

/-- `storage.save_snapchat_data(user_id, data)`:
`self._snapchat_data[user_id] = data; return True`. -/
def save_snapchat_data (w : World) (user_id : Int) (data : PyValue) :
    Bool × World :=
  (true, { w with snapchat_data := (user_id, data) :: w.snapchat_data })

/-- `storage.save_ai_insight(user_id, insight)`:
`self._ai_insights[user_id] = insight; return True`. -/
def save_ai_insight (w : World) (user_id : Int) (insight : String) :
    Bool × World :=
  (true, { w with ai_insights := (user_id, insight) :: w.ai_insights })

/-- `storage.get_snapchat_data(user_id)`: `self._snapchat_data.get(user_id)`. -/
def get_snapchat_data (w : World) (user_id : Int) : Option PyValue :=
  w.snapchat_data.lookup user_id

/-- `storage.get_ai_insight(user_id)`: `self._ai_insights.get(user_id)`. -/
def get_ai_insight (w : World) (user_id : Int) : Option String :=
  w.ai_insights.lookup user_id

end StorageService

namespace ArtifactService

/-- Modelled from the spec: `services/artifact_service.py` is imported by the
fetcher and analysis agents but is not under `src/`.  Spec §4.1:
`create(name, content, mimeType) → Artifact` always succeeds, returns a new
immutable `Artifact`, which the store owns for the lifetime of the process
(no delete or update). -/
def create (w : World) (name : String) (content : Bytes) (mime_type : String) :
    Artifact × World :=
  let a : Artifact := { name := name, content := content, mime_type := mime_type }
  (a, { w with artifacts := w.artifacts ++ [a] })

end ArtifactService

/-!
## External collaborator stubs

`services/snapchat.py` and `services/gemini.py` are simulated collaborators in
the source; their only non-determinism is the current time
(`datetime.now()` and the dates derived from it) and the `random` module.
`Env` packages those ambient inputs: a run of the Python process corresponds
to one `Env` value.
-/

/-- The ambient inputs of the simulated collaborators: `nowIso` is
`datetime.now().isoformat()`; `dateStr i` is
`(base_date + timedelta(days=i)).strftime("%Y-%m-%d")` for the `i`-th loop
iteration of `generate_followers_data`; `jitter i` is the
`random.randint(-50, 50)` drawn in that iteration; `choice` is the index
`random.choice` picks from the eight insight texts in `services/gemini.py`. -/
structure Env where
  nowIso : String
  dateStr : Nat → String
  jitter : Nat → Int
  choice : Fin 8

/-- `generate_followers_data()` from `services/snapchat.py`: 31 day records
with a formatted date and `20000 + i*150 + random.randint(-50, 50)` followers. -/
def generate_followers_data (env : Env) : PyValue :=
  .list ((List.range 31).map fun i =>
    .dict [("date", .str (env.dateStr i)),
           ("followers", .int (20000 + (i : Int) * 150 + env.jitter i))])

/-- The simulated analytics value returned by `fetch_snapchat_data` in
`services/snapchat.py` (the dict literal, in source order). -/
def snapchatStubData (env : Env) : PyValue :=
  .dict
    [("totalFollowers", .int 24583),
     ("followerGrowth", .float "12.3"),
     ("totalStoryViews", .int 15942),
     ("storyViewsGrowth", .float "8.7"),
     ("engagementRate", .float "5.2"),
     ("engagementRateChange", .float "-2.1"),
     ("completionRate", .float "78.3"),
     ("completionRateChange", .float "3.5"),
     ("lastUpdated", .str env.nowIso),
     ("followers", generate_followers_data env),
     ("demographics", .list
       [.dict [("ageRange", .str "18-24"), ("percentage", .int 45)],
        .dict [("ageRange", .str "25-34"), ("percentage", .int 30)],
        .dict [("ageRange", .str "35-44"), ("percentage", .int 15)],
        .dict [("ageRange", .str "45+"), ("percentage", .int 10)]]),
     ("content", .list
       [.dict [("id", .str "1"), ("title", .str "Summer Party Snap"),
               ("date", .str "2023-07-24"), ("views", .int 8452),
               ("completion", .int 85), ("screenshots", .int 214),
               ("shares", .int 126)],
        .dict [("id", .str "2"), ("title", .str "Beach Day"),
               ("date", .str "2023-07-22"), ("views", .int 7128),
               ("completion", .int 72), ("screenshots", .int 178),
               ("shares", .int 94)],
        .dict [("id", .str "3"), ("title", .str "New Product Reveal"),
               ("date", .str "2023-07-20"), ("views", .int 9834),
               ("completion", .int 91), ("screenshots", .int 412),
               ("shares", .int 203)],
        .dict [("id", .str "4"), ("title", .str "Behind The Scenes"),
               ("date", .str "2023-07-18"), ("views", .int 6453),
               ("completion", .int 68), ("screenshots", .int 145),
               ("shares", .int 87)],
        .dict [("id", .str "5"), ("title", .str "Q&A Session"),
               ("date", .str "2023-07-16"), ("views", .int 5892),
               ("completion", .int 79), ("screenshots", .int 201),
               ("shares", .int 156)]])]

/-- `fetch_snapchat_data(client_id, api_key)` from `services/snapchat.py`:
raises `ValueError` when either credential is falsy, otherwise returns the
simulated analytics dict. -/
def fetch_snapchat_data (env : Env) (client_id api_key : String) :
    Except PyErr PyValue :=
  if client_id == "" || api_key == "" then
    .error (.valueError "Invalid Snapchat API credentials")
  else
    .ok (snapchatStubData env)

/-- The eight candidate insight texts in `services/gemini.py` (each a single
Python string built from adjacent literals). -/
def geminiInsights : List String :=
  ["Your audience engagement is strongest on content posted between 6-8pm. Consider scheduling more posts during this timeframe for maximum reach.",
   "Your \x27New Product Reveal\x27 had the highest completion rate at 91%. This suggests your audience is interested in exclusive product announcements. Consider creating more content around product launches.",
   "Your follower growth rate of 12.3% is above industry average. Your consistent posting schedule seems to be working well for audience retention.",
   "18-24 year olds make up 45% of your audience. Your content resonates well with Gen Z. Consider incorporating more trending topics popular with this demographic.",
   "While your engagement rate of 5.2% is solid, there\x27s been a 2.1% decrease recently. Try experimenting with more interactive content like polls or questions to boost engagement.",
   "Screenshots are highest on your product-related content, suggesting your audience wants to save this information for later. Consider adding clear calls-to-action for these types of posts.",
   "Your story completion rate of 78.3% is excellent. Keep your stories concise and engaging to maintain this high retention rate.",
   "Based on your recent performance, creating more behind-the-scenes content could help improve your engagement metrics and attract new followers."]

/-- `generate_ai_insight(snapchat_data)` from `services/gemini.py`:
`random.choice` over the eight texts (the data argument is unused by the
stub). -/
def generate_ai_insight (env : Env) (_snapchat_data : PyValue) : String :=
  geminiInsights.getD env.choice.val ""

/-!
## Stage agents

Each agent's `run` is embedded as a function from its Python arguments (plus
the ambient `Env` and the mutable `World` where the body touches it) to
`Except PyErr result`, threading the updated `World`.
`agents/test_agent.py` and `agents/safety_agent.py` of `python_agents` are not
under `src/`; the repository carries the same two agents in
`agent-service/adk/services/test.py` and `adk/services/safety.py` (which spec
§4.5/§4.6 describe), and those bodies are embedded here.
-/

namespace SnapchatDataFetcherAgent

/-- `SnapchatDataFetcherAgent.run(user_id)`: looks the user up, raises
`ValueError` when the user is absent or either credential is falsy, calls
`fetch_snapchat_data`, and stores the JSON-serialized result as an artifact
named `snapchat-data-<user_id>`. -/
def run (env : Env) (w : World) (user_id : Int) :
    Except PyErr Artifact × World :=
  match StorageService.get_user w user_id with
  | Option.none =>
      (.error (.valueError
        ("Snapchat credentials not found for user " ++ toString user_id)), w)
  | some user =>
      if optStrFalsy user.snapchat_client_id || optStrFalsy user.snapchat_api_key then
        (.error (.valueError
          ("Snapchat credentials not found for user " ++ toString user_id)), w)
      else
        match fetch_snapchat_data env (user.snapchat_client_id.getD "")
            (user.snapchat_api_key.getD "") with
        | .error e => (.error e, w)
        | .ok snapchat_data =>
            let (artifact, w1) := ArtifactService.create w
              ("snapchat-data-" ++ toString user_id)
              (.jsonUtf8 snapchat_data) "application/json"
            (.ok artifact, w1)

end SnapchatDataFetcherAgent

namespace DataAnalysisAgent

/-- `DataAnalysisAgent.run(snapchat_data_artifact)`: decodes the artifact as
JSON, re-raising decode failures (`json.JSONDecodeError`,
`UnicodeDecodeError`) explicitly as a `ValueError` that carries the decode
error's text; generates an insight and stores it as a plain-text artifact
named `insight-<input name>`. -/
def run (env : Env) (w : World) (snapchat_data_artifact : Artifact) :
    Except PyErr Artifact × World :=
  match snapchat_data_artifact.content.jsonLoadsDecoded with
  | .error e =>
      (.error (.valueError
        ("Invalid Snapchat data format in artifact: " ++ e.message)), w)
  | .ok snapchat_data =>
      let insight := generate_ai_insight env snapchat_data
      let (insight_artifact, w1) := ArtifactService.create w
        ("insight-" ++ snapchat_data_artifact.name)
        (.textUtf8 insight) "text/plain"
      (.ok insight_artifact, w1)

end DataAnalysisAgent

namespace TestAgent

/-- `TestAgent.run(snapchat_data, insights)` from
`agent-service/adk/services/test.py`:
raises on `not snapchat_data or not snapchat_data.get("totalFollowers")`,
then on `not insights or not isinstance(insights, str)`, else returns `True`.
A truthy non-dict first argument would make `snapchat_data.get` raise
`AttributeError` (dicts are the only values the pipeline passes). -/
def run (snapchat_data insights : PyValue) : Except PyErr Bool :=
  if !snapchat_data.truthy then
    .error (.exception "Invalid Snapchat data: missing totalFollowers")
  else
    match snapchat_data with
    | .dict fields =>
        if !(PyValue.dictGet fields "totalFollowers").truthy then
          .error (.exception "Invalid Snapchat data: missing totalFollowers")
        else if !insights.truthy then
          .error (.exception "Invalid insights: not a string")
        else if !insights.isStr then
          .error (.exception "Invalid insights: not a string")
        else
          .ok true
    | _ =>
        .error (.attributeError
          "object has no attribute \x27get\x27")

end TestAgent

namespace SafetyAgent

/-- `SafetyAgent.contains_pii`: unimplemented stub, always `False`. -/
def contains_pii (_data : PyValue) : Bool := false

/-- `SafetyAgent.contains_inappropriate_content`: unimplemented stub, always
`False`. -/
def contains_inappropriate_content (_text : String) : Bool := false

/-- `SafetyAgent.run(snapchat_data, insights)` from
`agent-service/adk/services/safety.py`: raises if either screening predicate
reports a hit, else returns `True`. -/
def run (snapchat_data : PyValue) (insights : String) : Except PyErr Bool :=
  if contains_pii snapchat_data then
    .error (.exception "Snapchat data contains PII")
  else if contains_inappropriate_content insights then
    .error (.exception "Insights contain inappropriate content")
  else
    .ok true

end SafetyAgent

namespace EvaluationAgent

/-- `EvaluationAgent._is_relevant`: unimplemented stub, always `True`. -/
def is_relevant (_insights : String) : Bool := true

/-- `EvaluationAgent._is_actionable`: unimplemented stub, always `True`. -/
def is_actionable (_insights : String) : Bool := true

/-- `EvaluationAgent.run(insights)` from
`python_agents/agents/evaluation_agent.py`: raises `ValueError` if either
quality predicate reports `False`, else returns `True`. -/
def run (insights : String) : Except PyErr Bool :=
  if !is_relevant insights then
    .error (.valueError "Insights are not relevant")
  else if !is_actionable insights then
    .error (.valueError "Insights are not actionable")
  else
    .ok true

end EvaluationAgent

namespace DatabaseAgent

/-- `DatabaseAgent.run(user_id, snapchat_data, insights)` from
`python_agents/agents/database_agent.py`: saves the raw data, then the
insight, and returns `True`. -/
def run (w : World) (user_id : Int) (snapchat_data : PyValue)
    (insights : String) : Except PyErr Bool × World :=
  let (_, w1) := StorageService.save_snapchat_data w user_id snapchat_data
  let (_, w2) := StorageService.save_ai_insight w1 user_id insights
  (.ok true, w2)

end DatabaseAgent

/-!
## Orchestrator

`OrchestratorAgent.run` in `python_agents/agents/orchestrator_agent.py` calls
the six sub-agents' `execute` in a fixed order, decoding the two artifacts
between the Analysis and Validation calls.  Each sub-agent carries only a
`LoggingPlugin`, whose hooks observe and never alter the flowing value or
raise (see `Agent.execute` below), so at the value level a sub-agent's
`execute` behaves as its `run`; the embedding of the orchestrator therefore
calls the stage bodies directly and records which stages were invoked.
-/

/-- The six pipeline stages, in the order the orchestrator invokes them. -/
inductive StageTag where
  | fetch
  | analysis
  | validation
  | safety
  | evaluation
  | persistence
  deriving Repr, DecidableEq

/-- The canonical invocation order of the six stages. -/
def sixStages : List StageTag :=
  [.fetch, .analysis, .validation, .safety, .evaluation, .persistence]

/-- The pipeline result bundle: the dict
`{"snapchatData": ..., "insights": ...}` the orchestrator returns. -/
structure Bundle where
  snapchatData : PyValue
  insights : String

namespace OrchestratorAgent

/-- `OrchestratorAgent.run(user_id)` over the concrete sub-agents: fetch,
analyse, decode both artifacts (JSON decode failure of the data artifact is
re-raised as `ValueError`; the insight decode is unguarded), validate, screen,
evaluate, persist, and return the bundle.  The third component records the
sub-agent `execute` calls that were made, in order. -/
def run (env : Env) (w : World) (user_id : Int) :
    Except PyErr Bundle × World × List StageTag :=
  match SnapchatDataFetcherAgent.run env w user_id with
  | (.error e, w1) => (.error e, w1, [.fetch])
  | (.ok snapchat_data_artifact, w1) =>
  match DataAnalysisAgent.run env w1 snapchat_data_artifact with
  | (.error e, w2) => (.error e, w2, [.fetch, .analysis])
  | (.ok insight_artifact, w2) =>
  match snapchat_data_artifact.content.jsonLoadsDecoded with
  | .error e =>
      (.error (.valueError
        ("Invalid Snapchat data format in artifact: " ++ e.message)),
       w2, [.fetch, .analysis])
  | .ok snapchat_data =>
  match insight_artifact.content.decodeUtf8 with
  | .error e => (.error e, w2, [.fetch, .analysis])
  | .ok insights =>
  match TestAgent.run snapchat_data (.str insights) with
  | .error e => (.error e, w2, [.fetch, .analysis, .validation])
  | .ok _ =>
  match SafetyAgent.run snapchat_data insights with
  | .error e => (.error e, w2, [.fetch, .analysis, .validation, .safety])
  | .ok _ =>
  match EvaluationAgent.run insights with
  | .error e =>
      (.error e, w2, [.fetch, .analysis, .validation, .safety, .evaluation])
  | .ok _ =>
  match DatabaseAgent.run w2 user_id snapchat_data insights with
  | (.error e, w3) => (.error e, w3, sixStages)
  | (.ok _, w3) =>
      (.ok { snapchatData := snapchat_data, insights := insights },
       w3, sixStages)

end OrchestratorAgent

/-- The behaviours of the six sub-agents' `execute` operations, as the
orchestrator observes them: each either returns a value or raises.  The
concrete pipeline is one instance; quantifying over `SubAgents` captures
"every behaviour of the external collaborators". -/
structure SubAgents where
  fetcher : Int → Except PyErr Artifact
  analyzer : Artifact → Except PyErr Artifact
  validator : PyValue → String → Except PyErr Bool
  safety : PyValue → String → Except PyErr Bool
  evaluator : String → Except PyErr Bool
  database : Int → PyValue → String → Except PyErr Bool

namespace OrchestratorAgent

/-- `OrchestratorAgent.run(user_id)` with the six sub-agent behaviours left
abstract: the same statement sequence and decode steps as `run`, recording
the stages invoked. -/
def runWith (s : SubAgents) (user_id : Int) :
    Except PyErr Bundle × List StageTag :=
  match s.fetcher user_id with
  | .error e => (.error e, [.fetch])
  | .ok snapchat_data_artifact =>
  match s.analyzer snapchat_data_artifact with
  | .error e => (.error e, [.fetch, .analysis])
  | .ok insight_artifact =>
  match snapchat_data_artifact.content.jsonLoadsDecoded with
  | .error e =>
      (.error (.valueError
        ("Invalid Snapchat data format in artifact: " ++ e.message)),
       [.fetch, .analysis])
  | .ok snapchat_data =>
  match insight_artifact.content.decodeUtf8 with
  | .error e => (.error e, [.fetch, .analysis])
  | .ok insights =>
  match s.validator snapchat_data insights with
  | .error e => (.error e, [.fetch, .analysis, .validation])
  | .ok _ =>
  match s.safety snapchat_data insights with
  | .error e => (.error e, [.fetch, .analysis, .validation, .safety])
  | .ok _ =>
  match s.evaluator insights with
  | .error e =>
      (.error e, [.fetch, .analysis, .validation, .safety, .evaluation])
  | .ok _ =>
  match s.database user_id snapchat_data insights with
  | .error e => (.error e, sixStages)
  | .ok _ =>
      (.ok { snapchatData := snapchat_data, insights := insights }, sixStages)

end OrchestratorAgent

/-!
## Agent plugin lifecycle hooks (`python_agents/agents/base_agent.py`)

`Agent.execute` wraps `run` in a `try`: `_trigger_start`, `run`,
`_trigger_end`, `return result`, with an `except` that runs `_trigger_error`
and re-raises.  Each `_trigger_*` loop probes every attached plugin with
`hasattr` (here: an `Option` hook field) and calls the hook when present; a
hook that itself raises aborts the loop and its exception propagates into the
surrounding `try`/`except`.  Note `_trigger_end` sits *inside* the `try`.

Hooks are observers: their only observable effects are side effects (logged
here as `Event`s) and the possibility of raising, so a hook is embedded as an
`Except PyErr Unit` function of its call payload.
-/

/-- An attached plugin: each lifecycle hook is present (`some`, with the
hook's behaviour on its payload) or absent (`hasattr` false). -/
structure Plugin (α β : Type) where
  on_agent_start : Option (α → Except PyErr Unit) := Option.none
  on_agent_end : Option (β → Except PyErr Unit) := Option.none
  on_agent_error : Option (PyErr → Except PyErr Unit) := Option.none

/-- An observable event of one `execute` call: a hook invocation on the
plugin at attachment position `i`, or the single call into `run`. -/
inductive Event (α β : Type) where
  | onStart (i : Nat) (input : α)
  | runCall (input : α)
  | onEnd (i : Nat) (result : β)
  | onError (i : Nat) (error : PyErr)
  deriving DecidableEq

/-- `_trigger_start` over the plugins from attachment position `i` on:
invokes each present `on_agent_start` hook in order; a raising hook aborts
the loop. Returns the loop's outcome and the hook invocations made. -/
def triggerStart : List (Plugin α β) → Nat → α →
    Except PyErr Unit × List (Event α β)
  | [], _, _ => (.ok (), [])
  | p :: rest, i, input =>
    match p.on_agent_start with
    | Option.none => triggerStart rest (i + 1) input
    | some hook =>
      match hook input with
      | .error e => (.error e, [.onStart i input])
      | .ok _ =>
        let (r, evs) := triggerStart rest (i + 1) input
        (r, .onStart i input :: evs)

/-- `_trigger_end`, analogously. -/
def triggerEnd : List (Plugin α β) → Nat → β →
    Except PyErr Unit × List (Event α β)
  | [], _, _ => (.ok (), [])
  | p :: rest, i, result =>
    match p.on_agent_end with
    | Option.none => triggerEnd rest (i + 1) result
    | some hook =>
      match hook result with
      | .error e => (.error e, [.onEnd i result])
      | .ok _ =>
        let (r, evs) := triggerEnd rest (i + 1) result
        (r, .onEnd i result :: evs)

/-- `_trigger_error`, analogously. -/
def triggerError : List (Plugin α β) → Nat → PyErr →
    Except PyErr Unit × List (Event α β)
  | [], _, _ => (.ok (), [])
  | p :: rest, i, error =>
    match p.on_agent_error with
    | Option.none => triggerError rest (i + 1) error
    | some hook =>
      match hook error with
      | .error e => (.error e, [.onError i error])
      | .ok _ =>
        let (r, evs) := triggerError rest (i + 1) error
        (r, .onError i error :: evs)

/-- `Agent.execute(*args)`: `try: _trigger_start; result = run; _trigger_end;
return result / except error: _trigger_error(error); raise`.  An exception
raised inside the `except` block (by an error hook) propagates in place of
the re-raise.  Returns the call's outcome and its full event trace. -/
def Agent.execute (run : α → Except PyErr β) (plugins : List (Plugin α β))
    (input : α) : Except PyErr β × List (Event α β) :=
  match triggerStart plugins 0 input with
  | (.error e, evs0) =>
      let (r, evs1) := triggerError plugins 0 e
      ((match r with | .ok _ => .error e | .error e2 => .error e2),
       evs0 ++ evs1)
  | (.ok _, evs0) =>
    match run input with
    | .error e =>
        let (r, evs1) := triggerError plugins 0 e
        ((match r with | .ok _ => .error e | .error e2 => .error e2),
         evs0 ++ [.runCall input] ++ evs1)
    | .ok result =>
      match triggerEnd plugins 0 result with
      | (.ok _, evs1) => (.ok result, evs0 ++ [.runCall input] ++ evs1)
      | (.error e, evs1) =>
          let (r, evs2) := triggerError plugins 0 e
          ((match r with | .ok _ => .error e | .error e2 => .error e2),
           evs0 ++ [.runCall input] ++ evs1 ++ evs2)

/-- The `onStart` invocations the spec prescribes for one call with input
`a`: one per plugin possessing the hook, in attachment order (positions
counted from `i`). -/
def startEventsFrom (i : Nat) (plugins : List (Plugin α β)) (a : α) :
    List (Event α β) :=
  match plugins with
  | [] => []
  | p :: rest =>
    match p.on_agent_start with
    | Option.none => startEventsFrom (i + 1) rest a
    | some _ => .onStart i a :: startEventsFrom (i + 1) rest a

/-- The `onEnd` invocations the spec prescribes for result `b`. -/
def endEventsFrom (i : Nat) (plugins : List (Plugin α β)) (b : β) :
    List (Event α β) :=
  match plugins with
  | [] => []
  | p :: rest =>
    match p.on_agent_end with
    | Option.none => endEventsFrom (i + 1) rest b
    | some _ => .onEnd i b :: endEventsFrom (i + 1) rest b

/-- The `onError` invocations the spec prescribes for failure `e`. -/
def errorEventsFrom (i : Nat) (plugins : List (Plugin α β)) (e : PyErr) :
    List (Event α β) :=
  match plugins with
  | [] => []
  | p :: rest =>
    match p.on_agent_error with
    | Option.none => errorEventsFrom (i + 1) rest e
    | some _ => .onError i e :: errorEventsFrom (i + 1) rest e

/-- Every hook of the plugin completes normally on every payload (the
behaviour of `LoggingPlugin`, whose hooks only log). -/
def Plugin.NoRaise (p : Plugin α β) : Prop :=
  (∀ h a, p.on_agent_start = some h → h a = .ok ()) ∧
  (∀ h b, p.on_agent_end = some h → h b = .ok ()) ∧
  (∀ h e, p.on_agent_error = some h → h e = .ok ())

theorem triggerStart_of_ok (plugins : List (Plugin α β)) (i : Nat) (a : α)
    (h : ∀ p ∈ plugins, ∀ f, p.on_agent_start = some f → f a = .ok ()) :
    triggerStart plugins i a = (.ok (), startEventsFrom i plugins a) := by
  induction plugins generalizing i with
  | nil => rfl
  | cons p rest ih =>
    have hrest : ∀ q ∈ rest, ∀ f, q.on_agent_start = some f → f a = .ok () :=
      fun q hq => h q (List.mem_cons_of_mem _ hq)
    cases hps : p.on_agent_start with
    | none => simp [triggerStart, startEventsFrom, hps, ih _ hrest]
    | some f =>
      have hf := h p (List.mem_cons_self _ _) f hps
      simp [triggerStart, startEventsFrom, hps, hf, ih _ hrest]

theorem triggerEnd_of_ok (plugins : List (Plugin α β)) (i : Nat) (b : β)
    (h : ∀ p ∈ plugins, ∀ f, p.on_agent_end = some f → f b = .ok ()) :
    triggerEnd plugins i b = (.ok (), endEventsFrom i plugins b) := by
  induction plugins generalizing i with
  | nil => rfl
  | cons p rest ih =>
    have hrest : ∀ q ∈ rest, ∀ f, q.on_agent_end = some f → f b = .ok () :=
      fun q hq => h q (List.mem_cons_of_mem _ hq)
    cases hps : p.on_agent_end with
    | none => simp [triggerEnd, endEventsFrom, hps, ih _ hrest]
    | some f =>
      have hf := h p (List.mem_cons_self _ _) f hps
      simp [triggerEnd, endEventsFrom, hps, hf, ih _ hrest]

theorem triggerError_of_ok (plugins : List (Plugin α β)) (i : Nat) (e : PyErr)
    (h : ∀ p ∈ plugins, ∀ f, p.on_agent_error = some f → f e = .ok ()) :
    triggerError plugins i e = (.ok (), errorEventsFrom i plugins e) := by
  induction plugins generalizing i with
  | nil => rfl
  | cons p rest ih =>
    have hrest : ∀ q ∈ rest, ∀ f, q.on_agent_error = some f → f e = .ok () :=
      fun q hq => h q (List.mem_cons_of_mem _ hq)
    cases hps : p.on_agent_error with
    | none => simp [triggerError, errorEventsFrom, hps, ih _ hrest]
    | some f =>
      have hf := h p (List.mem_cons_self _ _) f hps
      simp [triggerError, errorEventsFrom, hps, hf, ih _ hrest]

/-- A plugin with no `on_agent_start` hook, an `on_agent_end` hook that
raises, and an `on_agent_error` hook that completes normally. -/
def badEndPlugin : Plugin Unit Nat :=
  { on_agent_end := some fun _ => .error (.exception "boom"),
    on_agent_error := some fun _ => .ok () }

/-- A plugin behaving like `LoggingPlugin`: all three hooks present, none
ever raises. -/
def loggingLikePlugin : Plugin Unit Nat :=
  { on_agent_start := some fun _ => .ok (),
    on_agent_end := some fun _ => .ok (),
    on_agent_error := some fun _ => .ok () }

/-- C1 counterexample: with one attached plugin whose `on_agent_end` hook
raises, a call whose `run` succeeds fires both that plugin's `onEnd` hook and
its `onError` hook within the same `execute` call, and the successful result
of `run` is not returned — refuting the claimed `onEnd`/`onError` mutual
exclusion and result pass-through for every list of attached plugins
(`_trigger_end` sits inside the `try` block of `Agent.execute`). -/
theorem hook_mutual_exclusion_counterexample :
    Event.onEnd 0 7 ∈ (Agent.execute (fun _ => .ok 7) [badEndPlugin] ()).2 ∧
    Event.onError 0 (.exception "boom") ∈
      (Agent.execute (fun _ => .ok 7) [badEndPlugin] ()).2 ∧
    (Agent.execute (fun _ => .ok 7) [badEndPlugin] ()).1 ≠ .ok 7 := by
  refine ⟨?_, ?_, ?_⟩ <;>
    simp [Agent.execute, triggerStart, triggerEnd, triggerError, badEndPlugin]

/-- C1 (amended: provided no hook of any attached plugin itself raises —
hook-raising behaviour is the subject of C9): `execute` fires each plugin's
present `onStart` hook exactly once in attachment order with the invocation
input, then calls `run` exactly once; on success it fires each present
`onEnd` hook exactly once in attachment order with the result and returns
the result unchanged; on failure it fires each present `onError` hook
exactly once in attachment order with the failure and re-raises it
unchanged.  The trace equality also gives `onEnd`/`onError` mutual
exclusion: the trace contains `onEnd` events only when `run` succeeded and
`onError` events only when it failed. -/
theorem execute_hook_dispatch_of_noRaise (run : α → Except PyErr β)
    (plugins : List (Plugin α β)) (a : α)
    (h : ∀ p ∈ plugins, p.NoRaise) :
    Agent.execute run plugins a =
      (run a,
       startEventsFrom 0 plugins a ++ [Event.runCall a] ++
         (match run a with
          | .ok b => endEventsFrom 0 plugins b
          | .error e => errorEventsFrom 0 plugins e)) := by
  have hs : ∀ p ∈ plugins, ∀ f, p.on_agent_start = some f → f a = .ok () :=
    fun p hp f hf => (h p hp).1 f a hf
  cases hr : run a with
  | ok b =>
    have he : ∀ p ∈ plugins, ∀ f, p.on_agent_end = some f → f b = .ok () :=
      fun p hp f hf => (h p hp).2.1 f b hf
    simp [Agent.execute, triggerStart_of_ok _ 0 _ hs, hr,
      triggerEnd_of_ok _ 0 _ he]
  | error e =>
    have herr : ∀ p ∈ plugins, ∀ f, p.on_agent_error = some f → f e = .ok () :=
      fun p hp f hf => (h p hp).2.2 f e hf
    simp [Agent.execute, triggerStart_of_ok _ 0 _ hs, hr,
      triggerError_of_ok _ 0 _ herr]

/-- Witness for `execute_hook_dispatch_of_noRaise` at a concrete agent: one
never-raising plugin with all three hooks, `run` returning `3`. -/
theorem execute_hook_dispatch_witness :
    Agent.execute (fun _ => .ok 3) [loggingLikePlugin] () =
      (.ok 3, [Event.onStart 0 (), Event.runCall (), Event.onEnd 0 3]) := by
  have h := execute_hook_dispatch_of_noRaise (fun _ => .ok 3)
    [loggingLikePlugin] () (by
      intro p hp
      simp only [List.mem_singleton] at hp
      subst hp
      refine ⟨?_, ?_, ?_⟩ <;>
        (intro f x hf; injection hf with hf; subst hf; rfl))
  simpa [startEventsFrom, endEventsFrom, loggingLikePlugin] using h

/-- C9: if `run` succeeds but the `on_agent_end` loop raises `e` (some
attached plugin's `onEnd` hook raised), `execute` runs every plugin's
`on_agent_error` hook with `e` and the caller receives `e`, not `run`'s
result; the trace shows the `onEnd` invocations made before the raise
(`endEvs`) followed by the `onError` invocations of every plugin possessing
that hook.  (Start hooks are assumed to complete so that `run` is reached,
and error hooks to complete so that the dispatch itself finishes.) -/
theorem raising_end_hook_triggers_error_hooks (run : α → Except PyErr β)
    (plugins : List (Plugin α β)) (a : α) (b : β) (e : PyErr)
    (endEvs : List (Event α β))
    (hstart : ∀ p ∈ plugins, ∀ f, p.on_agent_start = some f → f a = .ok ())
    (hrun : run a = .ok b)
    (hend : triggerEnd plugins 0 b = (.error e, endEvs))
    (herr : ∀ p ∈ plugins, ∀ f, p.on_agent_error = some f → f e = .ok ()) :
    Agent.execute run plugins a =
      (.error e,
       startEventsFrom 0 plugins a ++ [Event.runCall a] ++ endEvs ++
         errorEventsFrom 0 plugins e) := by
  simp [Agent.execute, triggerStart_of_ok _ 0 _ hstart, hrun, hend,
    triggerError_of_ok _ 0 _ herr]

/-- Witness for `raising_end_hook_triggers_error_hooks`: the concrete
raising-`onEnd` plugin. -/
theorem raising_end_hook_witness :
    Agent.execute (fun _ => .ok 7) [badEndPlugin] () =
      (.error (.exception "boom"),
       [Event.runCall (), Event.onEnd 0 7,
        Event.onError 0 (.exception "boom")]) := by
  have h := raising_end_hook_triggers_error_hooks (fun _ => .ok 7)
    [badEndPlugin] () 7 (.exception "boom") [Event.onEnd 0 7]
    (by
      intro p hp f hf
      simp only [List.mem_singleton] at hp
      subst hp
      simp [badEndPlugin] at hf)
    rfl
    (by simp [triggerEnd, badEndPlugin])
    (by
      intro p hp f hf
      simp only [List.mem_singleton] at hp
      subst hp
      simp only [badEndPlugin] at hf
      injection hf with hf
      subst hf
      rfl)
  simpa [startEventsFrom, errorEventsFrom, badEndPlugin] using h

/-- C2: for every behaviour of the six sub-agents and every subject, if stage
`k` fails (each conjunct supposes the stages before `k` succeeded, so that
stage `k` is reached), the invocation trace stops at stage `k` — no later
stage is ever invoked — and the run ends with exactly the failure stage `k`
raised.  The two artifact-decoding steps the orchestrator itself performs
between Analysis and Validation appear as the `jsonLoadsDecoded`/`decodeUtf8`
hypotheses of the later conjuncts. -/
theorem orchestrator_failure_short_circuits (s : SubAgents) (uid : Int) :
    (∀ e, s.fetcher uid = .error e →
      OrchestratorAgent.runWith s uid = (.error e, [.fetch])) ∧
    (∀ a e, s.fetcher uid = .ok a → s.analyzer a = .error e →
      OrchestratorAgent.runWith s uid = (.error e, [.fetch, .analysis])) ∧
    (∀ a ia d i e, s.fetcher uid = .ok a → s.analyzer a = .ok ia →
      a.content.jsonLoadsDecoded = .ok d → ia.content.decodeUtf8 = .ok i →
      s.validator d i = .error e →
      OrchestratorAgent.runWith s uid =
        (.error e, [.fetch, .analysis, .validation])) ∧
    (∀ a ia d i v1 e, s.fetcher uid = .ok a → s.analyzer a = .ok ia →
      a.content.jsonLoadsDecoded = .ok d → ia.content.decodeUtf8 = .ok i →
      s.validator d i = .ok v1 → s.safety d i = .error e →
      OrchestratorAgent.runWith s uid =
        (.error e, [.fetch, .analysis, .validation, .safety])) ∧
    (∀ a ia d i v1 v2 e, s.fetcher uid = .ok a → s.analyzer a = .ok ia →
      a.content.jsonLoadsDecoded = .ok d → ia.content.decodeUtf8 = .ok i →
      s.validator d i = .ok v1 → s.safety d i = .ok v2 →
      s.evaluator i = .error e →
      OrchestratorAgent.runWith s uid =
        (.error e, [.fetch, .analysis, .validation, .safety, .evaluation])) ∧
    (∀ a ia d i v1 v2 v3 e, s.fetcher uid = .ok a → s.analyzer a = .ok ia →
      a.content.jsonLoadsDecoded = .ok d → ia.content.decodeUtf8 = .ok i →
      s.validator d i = .ok v1 → s.safety d i = .ok v2 →
      s.evaluator i = .ok v3 → s.database uid d i = .error e →
      OrchestratorAgent.runWith s uid = (.error e, sixStages)) := by
  refine ⟨?_, ?_, ?_, ?_, ?_, ?_⟩
  · intro e h1
    simp [OrchestratorAgent.runWith, h1]
  · intro a e h1 h2
    simp [OrchestratorAgent.runWith, h1, h2]
  · intro a ia d i e h1 h2 h3 h4 h5
    simp [OrchestratorAgent.runWith, h1, h2, h3, h4, h5]
  · intro a ia d i v1 e h1 h2 h3 h4 h5 h6
    simp [OrchestratorAgent.runWith, h1, h2, h3, h4, h5, h6]
  · intro a ia d i v1 v2 e h1 h2 h3 h4 h5 h6 h7
    simp [OrchestratorAgent.runWith, h1, h2, h3, h4, h5, h6, h7]
  · intro a ia d i v1 v2 v3 e h1 h2 h3 h4 h5 h6 h7 h8
    simp [OrchestratorAgent.runWith, h1, h2, h3, h4, h5, h6, h7, h8]

/-- A data artifact as the fetch stage produces it, for concrete scenarios. -/
def sampleDataArtifact : Artifact :=
  { name := "snapchat-data-1",
    content := .jsonUtf8 (.dict [("totalFollowers", .int 24583)]),
    mime_type := "application/json" }

/-- An insight artifact as the analysis stage produces it, for concrete
scenarios. -/
def sampleInsightArtifact : Artifact :=
  { name := "insight-snapchat-data-1",
    content := .textUtf8 "Post more behind-the-scenes content.",
    mime_type := "text/plain" }

/-- Concrete sub-agent behaviours whose validator raises and all earlier
stages succeed. -/
def failingValidatorAgents : SubAgents :=
  { fetcher := fun _ => .ok sampleDataArtifact,
    analyzer := fun _ => .ok sampleInsightArtifact,
    validator := fun _ _ =>
      .error (.exception "Invalid Snapchat data: missing totalFollowers"),
    safety := fun _ _ => .ok true,
    evaluator := fun _ => .ok true,
    database := fun _ _ _ => .ok true }

/-- Witness for `orchestrator_failure_short_circuits`: with a failing
Validation stage the run stops after the third stage and carries the
validator's failure. -/
theorem orchestrator_failure_short_circuits_witness :
    OrchestratorAgent.runWith failingValidatorAgents 1 =
      (.error (.exception "Invalid Snapchat data: missing totalFollowers"),
       [.fetch, .analysis, .validation]) :=
  (orchestrator_failure_short_circuits failingValidatorAgents 1).2.2.1
    sampleDataArtifact sampleInsightArtifact
    (.dict [("totalFollowers", .int 24583)])
    "Post more behind-the-scenes content."
    (.exception "Invalid Snapchat data: missing totalFollowers")
    rfl rfl rfl rfl rfl

/-- C7: the orchestrator returns a bundle only when all six stages were
invoked and succeeded (and the two decode steps succeeded), and the bundle
is exactly the decoded raw data and decoded insight; a failing run returns
only the failure (the result is an `Except`: no bundle accompanies an
error). -/
theorem bundle_only_after_all_stages (s : SubAgents) (uid : Int) (b : Bundle)
    (tr : List StageTag)
    (h : OrchestratorAgent.runWith s uid = (.ok b, tr)) :
    tr = sixStages ∧
    ∃ a ia d i v1 v2 v3 v4,
      s.fetcher uid = .ok a ∧ s.analyzer a = .ok ia ∧
      a.content.jsonLoadsDecoded = .ok d ∧ ia.content.decodeUtf8 = .ok i ∧
      s.validator d i = .ok v1 ∧ s.safety d i = .ok v2 ∧
      s.evaluator i = .ok v3 ∧ s.database uid d i = .ok v4 ∧
      b = { snapchatData := d, insights := i } := by
  unfold OrchestratorAgent.runWith at h
  cases hf : s.fetcher uid with
  | error e => simp only [hf] at h; simp at h
  | ok a =>
  simp only [hf] at h
  cases ha : s.analyzer a with
  | error e => simp only [ha] at h; simp at h
  | ok ia =>
  simp only [ha] at h
  cases hd : a.content.jsonLoadsDecoded with
  | error e => simp only [hd] at h; simp at h
  | ok d =>
  simp only [hd] at h
  cases hi : ia.content.decodeUtf8 with
  | error e => simp only [hi] at h; simp at h
  | ok i =>
  simp only [hi] at h
  cases hv : s.validator d i with
  | error e => simp only [hv] at h; simp at h
  | ok v1 =>
  simp only [hv] at h
  cases hsf : s.safety d i with
  | error e => simp only [hsf] at h; simp at h
  | ok v2 =>
  simp only [hsf] at h
  cases hev : s.evaluator i with
  | error e => simp only [hev] at h; simp at h
  | ok v3 =>
  simp only [hev] at h
  cases hdb : s.database uid d i with
  | error e => simp only [hdb] at h; simp at h
  | ok v4 =>
  simp only [hdb, Prod.mk.injEq] at h
  obtain ⟨hb, htr⟩ := h
  injection hb with hb
  refine ⟨htr.symm, a, ia, d, i, v1, v2, v3, v4,
    ?_, ?_, ?_, ?_, ?_, ?_, ?_, ?_, hb.symm⟩ <;> first | rfl | assumption

/-- Concrete sub-agent behaviours where every stage succeeds. -/
def allOkAgents : SubAgents :=
  { fetcher := fun _ => .ok sampleDataArtifact,
    analyzer := fun _ => .ok sampleInsightArtifact,
    validator := fun _ _ => .ok true,
    safety := fun _ _ => .ok true,
    evaluator := fun _ => .ok true,
    database := fun _ _ _ => .ok true }

/-- Witness for `bundle_only_after_all_stages` at the all-successful concrete
behaviours. -/
theorem bundle_only_after_all_stages_witness :
    ([.fetch, .analysis, .validation, .safety, .evaluation, .persistence]
        : List StageTag) = sixStages ∧
    ∃ a ia d i v1 v2 v3 v4,
      allOkAgents.fetcher 1 = .ok a ∧ allOkAgents.analyzer a = .ok ia ∧
      a.content.jsonLoadsDecoded = .ok d ∧ ia.content.decodeUtf8 = .ok i ∧
      allOkAgents.validator d i = .ok v1 ∧ allOkAgents.safety d i = .ok v2 ∧
      allOkAgents.evaluator i = .ok v3 ∧
      allOkAgents.database 1 d i = .ok v4 ∧
      ({ snapchatData := .dict [("totalFollowers", .int 24583)],
         insights := "Post more behind-the-scenes content." } : Bundle) =
        { snapchatData := d, insights := i } :=
  bundle_only_after_all_stages allOkAgents 1
    { snapchatData := .dict [("totalFollowers", .int 24583)],
      insights := "Post more behind-the-scenes content." }
    [.fetch, .analysis, .validation, .safety, .evaluation, .persistence]
    rfl

/-- C6: for every artifact whose content is not valid UTF-8 or not a JSON
document, `DataAnalysisAgent.run` fails with an explicitly raised
`ValueError` whose message appends the decode error's detail to
"Invalid Snapchat data format in artifact: " — a `ValueError`, not the
propagated `UnicodeDecodeError`/`json.JSONDecodeError` — leaving the world
(in particular the artifact store) untouched; and whenever the Analysis
stage fails, the Persistence stage is never invoked. -/
theorem malformed_artifact_explicit_and_no_persistence :
    (∀ (env : Env) (w : World) (name mime detail : String),
      DataAnalysisAgent.run env w
          { name := name, content := .invalidUtf8 detail, mime_type := mime } =
        (.error (.valueError
          ("Invalid Snapchat data format in artifact: " ++ detail)), w)) ∧
    (∀ (env : Env) (w : World) (name mime s : String),
      DataAnalysisAgent.run env w
          { name := name, content := .textUtf8 s, mime_type := mime } =
        (.error (.valueError
          ("Invalid Snapchat data format in artifact: " ++
            jsonSyntaxErrorDetail)), w)) ∧
    (∀ (s : SubAgents) (uid : Int) (a : Artifact) (e : PyErr),
      s.fetcher uid = .ok a → s.analyzer a = .error e →
      StageTag.persistence ∉ (OrchestratorAgent.runWith s uid).2) := by
  refine ⟨?_, ?_, ?_⟩
  · intro env w name mime detail
    rfl
  · intro env w name mime s
    rfl
  · intro s uid a e h1 h2
    simp [OrchestratorAgent.runWith, h1, h2]

/-- Concrete sub-agent behaviours whose analysis stage raises the
malformed-artifact `ValueError`. -/
def failingAnalyzerAgents : SubAgents :=
  { fetcher := fun _ => .ok sampleDataArtifact,
    analyzer := fun _ =>
      .error (.valueError
        ("Invalid Snapchat data format in artifact: " ++
          jsonSyntaxErrorDetail)),
    validator := fun _ _ => .ok true,
    safety := fun _ _ => .ok true,
    evaluator := fun _ => .ok true,
    database := fun _ _ _ => .ok true }

/-- A concrete `Env` for witnesses: a fixed clock and the first insight. -/
def sampleEnv : Env :=
  { nowIso := "2023-07-24T12:00:00",
    dateStr := fun _ => "2023-07-24",
    jitter := fun _ => 0,
    choice := 0 }

/-- The empty `World`: no users, no stored data, no artifacts. -/
def emptyWorld : World :=
  { users := [], snapchat_data := [], ai_insights := [], artifacts := [] }

/-- Witness for `malformed_artifact_explicit_and_no_persistence`: a concrete
invalid-UTF-8 artifact, and a concrete run whose Analysis stage fails. -/
theorem malformed_artifact_witness :
    DataAnalysisAgent.run sampleEnv emptyWorld
        { name := "snapchat-data-1",
          content := .invalidUtf8
            "\x27utf-8\x27 codec can\x27t decode byte 0xff in position 0",
          mime_type := "application/json" } =
      (.error (.valueError
        ("Invalid Snapchat data format in artifact: " ++
          "\x27utf-8\x27 codec can\x27t decode byte 0xff in position 0")),
       emptyWorld) ∧
    StageTag.persistence ∉
      (OrchestratorAgent.runWith failingAnalyzerAgents 1).2 :=
  ⟨malformed_artifact_explicit_and_no_persistence.1 sampleEnv emptyWorld
      "snapchat-data-1" "application/json"
      "\x27utf-8\x27 codec can\x27t decode byte 0xff in position 0",
   malformed_artifact_explicit_and_no_persistence.2.2 failingAnalyzerAgents 1
      sampleDataArtifact
      (.valueError
        ("Invalid Snapchat data format in artifact: " ++
          jsonSyntaxErrorDetail))
      rfl rfl⟩

/-- C5 counterexample: the raw value `{"totalFollowers": 0}` is present and
contains the follower-count field, and the insight is a non-absent non-empty
string, yet the Validation stage fails (with the invalid-data condition)
instead of succeeding — because the stage tests the field's Python
truthiness, not its presence. -/
theorem validation_truthiness_counterexample :
    TestAgent.run (.dict [("totalFollowers", .int 0)])
        (.str "Post more behind-the-scenes content.") =
      .error (.exception "Invalid Snapchat data: missing totalFollowers") := by
  rfl

theorem truthy_dict (fs : List (String × PyValue)) :
    (PyValue.dict fs).truthy = !fs.isEmpty := rfl

theorem truthy_str (s : String) : (PyValue.str s).truthy = (s != "") := rfl

/-- C5 (amended): on a present (dict) raw value and any insight value, the
Validation stage fails with the invalid-data condition iff the raw dict is
empty or its follower-count field is absent or Python-falsy; otherwise it
fails with the invalid-insight condition iff the insight is Python-falsy
(e.g. absent or the empty string) or not a string; otherwise it succeeds —
and these are the only checks performed. -/
theorem validation_characterization
    (fields : List (String × PyValue)) (insights : PyValue) :
    TestAgent.run (.dict fields) insights =
      if fields.isEmpty ∨ ¬(PyValue.dictGet fields "totalFollowers").truthy then
        .error (.exception "Invalid Snapchat data: missing totalFollowers")
      else if ¬insights.truthy ∨ ¬insights.isStr then
        .error (.exception "Invalid insights: not a string")
      else
        .ok true := by
  by_cases hemp : fields.isEmpty
  · have : fields = [] := List.isEmpty_iff.mp hemp
    subst this
    simp [TestAgent.run, PyValue.truthy, PyValue.dictGet]
  · have hie : fields.isEmpty = false := Bool.eq_false_iff.mpr hemp
    by_cases hget : (PyValue.dictGet fields "totalFollowers").truthy
    · by_cases htr : insights.truthy
      · by_cases hstr : insights.isStr
        · simp [TestAgent.run, truthy_dict, hie, hget, htr, hstr]
        · simp [TestAgent.run, truthy_dict, hie, hget, htr, hstr]
      · simp [TestAgent.run, truthy_dict, hie, hget, htr]
    · simp [TestAgent.run, truthy_dict, hie, hget]

/-- C8: whenever the follower-count field is present in the raw dict but
holds a Python-falsy value (`0`, `""`, `None`, ...), the Validation stage
fails with the invalid-data condition even though the field is not absent. -/
theorem validation_falsy_follower_count_fails
    (fields : List (String × PyValue)) (v : PyValue) (insights : PyValue)
    (hmem : fields.lookup "totalFollowers" = some v)
    (hfalsy : v.truthy = false) :
    TestAgent.run (.dict fields) insights =
      .error (.exception "Invalid Snapchat data: missing totalFollowers") := by
  have hne : fields ≠ [] := by
    intro h
    subst h
    simp [List.lookup] at hmem
  have hget : PyValue.dictGet fields "totalFollowers" = v := by
    simp [PyValue.dictGet, hmem]
  have hie : fields.isEmpty = false := by
    cases fields with
    | nil => exact absurd rfl hne
    | cons x xs => rfl
  simp [TestAgent.run, truthy_dict, hie, hget, hfalsy]

/-- Witness for `validation_falsy_follower_count_fails`: follower count `0`
with a well-formed insight. -/
theorem validation_falsy_follower_count_witness :
    TestAgent.run (.dict [("engagementRate", .float "5.2"),
        ("totalFollowers", .int 0)])
        (.str "Schedule more posts between 6-8pm.") =
      .error (.exception "Invalid Snapchat data: missing totalFollowers") :=
  validation_falsy_follower_count_fails
    [("engagementRate", .float "5.2"), ("totalFollowers", .int 0)]
    (.int 0) (.str "Schedule more posts between 6-8pm.") rfl rfl

/-- C4: when the subject is absent from storage, or present with an absent or
empty client-id or API-key credential, the whole orchestrator run fails
immediately with the missing-credentials `ValueError`, only the Fetch stage
having been invoked, and the world is returned exactly as it was: zero
artifacts have been created and zero persistence writes have occurred. -/
theorem missing_credentials_fails_without_writes (env : Env) (w : World)
    (uid : Int)
    (h : StorageService.get_user w uid = Option.none ∨
      ∃ u, StorageService.get_user w uid = some u ∧
        (optStrFalsy u.snapchat_client_id ||
          optStrFalsy u.snapchat_api_key) = true) :
    OrchestratorAgent.run env w uid =
      (.error (.valueError
        ("Snapchat credentials not found for user " ++ toString uid)),
       w, [.fetch]) := by
  rcases h with h | ⟨u, hu, hc⟩
  · simp [OrchestratorAgent.run, SnapchatDataFetcherAgent.run, h]
  · simp [OrchestratorAgent.run, SnapchatDataFetcherAgent.run, hu, hc]

/-- Witness for `missing_credentials_fails_without_writes`: subject id 999 on
an empty directory (the spec's concrete scenario). -/
theorem missing_credentials_witness :
    OrchestratorAgent.run sampleEnv emptyWorld 999 =
      (.error (.valueError
        ("Snapchat credentials not found for user " ++ toString (999 : Int))),
       emptyWorld, [.fetch]) :=
  missing_credentials_fails_without_writes sampleEnv emptyWorld 999
    (Or.inl rfl)

/-- C10: `save_snapchat_data` and `save_ai_insight` always report success,
the matching getter immediately afterwards returns exactly the value just
saved, and a second save for the same user id overwrites the first (last
write wins). -/
theorem storage_save_get_round_trip (w : World) (uid : Int) (d d2 : PyValue)
    (i i2 : String) :
    (StorageService.save_snapchat_data w uid d).1 = true ∧
    (StorageService.save_ai_insight w uid i).1 = true ∧
    StorageService.get_snapchat_data
      (StorageService.save_snapchat_data w uid d).2 uid = some d ∧
    StorageService.get_ai_insight
      (StorageService.save_ai_insight w uid i).2 uid = some i ∧
    StorageService.get_snapchat_data
      (StorageService.save_snapchat_data
        (StorageService.save_snapchat_data w uid d).2 uid d2).2 uid =
      some d2 ∧
    StorageService.get_ai_insight
      (StorageService.save_ai_insight
        (StorageService.save_ai_insight w uid i).2 uid i2).2 uid = some i2 := by
  refine ⟨rfl, rfl, ?_, ?_, ?_, ?_⟩ <;>
    simp [StorageService.save_snapchat_data, StorageService.save_ai_insight,
      StorageService.get_snapchat_data, StorageService.get_ai_insight,
      List.lookup]

theorem generate_ai_insight_ne_empty (env : Env) (v : PyValue) :
    generate_ai_insight env v ≠ "" := by
  have h : ∀ c : Fin 8, geminiInsights.getD c.val "" ≠ "" := by decide
  exact h env.choice

theorem testAgent_stub_ok (env : Env) (s : String) (hs : s ≠ "") :
    TestAgent.run (snapchatStubData env) (.str s) = .ok true := by
  simp [TestAgent.run, snapchatStubData, PyValue.truthy, PyValue.dictGet,
    PyValue.isStr, List.lookup, hs]

/-- C3: for every subject whose record is in the directory with both
credential fields present and non-empty, the orchestrator run completes all
six stages and returns the bundle whose raw-data value is exactly the
structured value the upstream fetch collaborator returned — the JSON
serialize-into-artifact / decode round trip is the identity on it — and
whose insight is a non-empty text. -/
theorem orchestrator_full_run_completes (env : Env) (w : World) (uid : Int)
    (u : User) (cid key : String)
    (hu : StorageService.get_user w uid = some u)
    (hcid : u.snapchat_client_id = some cid) (hcidne : cid ≠ "")
    (hkey : u.snapchat_api_key = some key) (hkeyne : key ≠ "") :
    ∃ w2 : World,
      OrchestratorAgent.run env w uid =
        (.ok { snapchatData := snapchatStubData env,
               insights := generate_ai_insight env (snapchatStubData env) },
         w2, sixStages) ∧
      fetch_snapchat_data env cid key = .ok (snapchatStubData env) ∧
      generate_ai_insight env (snapchatStubData env) ≠ "" := by
  have hfetch : fetch_snapchat_data env cid key = .ok (snapchatStubData env) := by
    simp [fetch_snapchat_data, hcidne, hkeyne]
  have hne := generate_ai_insight_ne_empty env (snapchatStubData env)
  have hvalid := testAgent_stub_ok env _ hne
  refine ⟨{ users := w.users,
            snapchat_data := (uid, snapchatStubData env) :: w.snapchat_data,
            ai_insights :=
              (uid, generate_ai_insight env (snapchatStubData env)) ::
                w.ai_insights,
            artifacts := w.artifacts ++
              [{ name := "snapchat-data-" ++ toString uid,
                 content := .jsonUtf8 (snapchatStubData env),
                 mime_type := "application/json" },
               { name := "insight-" ++ ("snapchat-data-" ++ toString uid),
                 content :=
                   .textUtf8 (generate_ai_insight env (snapchatStubData env)),
                 mime_type := "text/plain" }] }, ?_, hfetch, hne⟩
  simp [OrchestratorAgent.run, SnapchatDataFetcherAgent.run,
    DataAnalysisAgent.run, ArtifactService.create, hu, hcid, hkey,
    optStrFalsy, hcidne, hkeyne, hfetch, Bytes.jsonLoadsDecoded,
    Bytes.decodeUtf8, hvalid, SafetyAgent.run, SafetyAgent.contains_pii,
    SafetyAgent.contains_inappropriate_content, EvaluationAgent.run,
    EvaluationAgent.is_relevant, EvaluationAgent.is_actionable,
    DatabaseAgent.run, StorageService.save_snapchat_data,
    StorageService.save_ai_insight]

/-- A directory holding subject 1 with credentials `("cid", "key")` (the
spec's concrete success scenario). -/
def sampleUserWorld : World :=
  { users := [(1, { id := 1, username := "duck",
                    snapchat_client_id := some "cid",
                    snapchat_api_key := some "key" })],
    snapchat_data := [], ai_insights := [], artifacts := [] }

/-- Witness for `orchestrator_full_run_completes`: subject 1 with credentials
present. -/
theorem orchestrator_full_run_witness :
    ∃ w2 : World,
      OrchestratorAgent.run sampleEnv sampleUserWorld 1 =
        (.ok { snapchatData := snapchatStubData sampleEnv,
               insights :=
                 generate_ai_insight sampleEnv (snapchatStubData sampleEnv) },
         w2, sixStages) ∧
      fetch_snapchat_data sampleEnv "cid" "key" =
        .ok (snapchatStubData sampleEnv) ∧
      generate_ai_insight sampleEnv (snapchatStubData sampleEnv) ≠ "" :=
  orchestrator_full_run_completes sampleEnv sampleUserWorld 1
    { id := 1, username := "duck", snapchat_client_id := some "cid",
      snapchat_api_key := some "key" }
    "cid" "key" rfl rfl (by decide) rfl (by decide)
